import Mathlib

/-!
Verification development for the whisper-node background-task core:
a shallow embedding of `src/whisper_subtitle/tasks/scheduler.py`,
`src/whisper_subtitle/core/engines/registry.py`,
`src/whisper_subtitle/core/engines/openai_whisper.py` and
`src/whisper_subtitle/tasks/youtube_fetcher.py`.

Times (`datetime` / `timedelta`) are modelled as natural numbers of
minutes, matching the scheduler's backoff unit (`timedelta(minutes=...)`).
Wall-clock-only fields (`processing_time`, a float) and the opaque work
callable stored in a task are outside the embedding: an execution's
outcome (the callable returning or raising) is passed to the step
function as an explicit `ExecOutcome`. Python dictionaries are modelled
as association lists with replace-on-store semantics.
-/

namespace WhisperSubtitle

/-- Association-list lookup, modelling `key in dict` / `dict[key]`. -/
def alookup {α : Type} : List (String × α) → String → Option α
  | [], _ => none
  | (k, v) :: rest, key => if k = key then some v else alookup rest key

/-- Association-list store, modelling `dict[key] = value` (replace if present). -/
def ainsert {α : Type} : List (String × α) → String → α → List (String × α)
  | [], key, value => [(key, value)]
  | (k, v) :: rest, key, value =>
      if k = key then (key, value) :: rest else (k, v) :: ainsert rest key value

/-! ## Task scheduler (`tasks/scheduler.py`) -/

/-- `TaskStatus` enumeration (scheduler.py lines 13-19). -/
inductive TaskStatus where
  | pending
  | running
  | completed
  | failed
  | cancelled
deriving DecidableEq

/-- `ScheduledTask` dataclass (scheduler.py lines 22-40), minus the opaque
callable `func`/`args`/`kwargs`; `result` is the value returned by a
successful execution, modelled as a string. -/
structure ScheduledTask where
  id : String
  name : String
  schedule_time : Nat
  interval : Option Nat
  max_retries : Nat
  retry_count : Nat
  status : TaskStatus
  created_at : Nat
  started_at : Option Nat
  completed_at : Option Nat
  result : Option String
  error : Option String
  next_run : Option Nat
deriving DecidableEq

/-- The scheduler's task dictionary `self.tasks`. -/
def TaskMap := List (String × ScheduledTask)

/-- The `ScheduledTask(...)` construction inside `schedule_task`
(scheduler.py lines 118-128): fresh task, `next_run = schedule_time`. -/
def newTask (task_id nm : String) (schedule_time : Nat) (interval : Option Nat)
    (max_retries : Nat) (now : Nat) : ScheduledTask :=
  { id := task_id
    name := nm
    schedule_time := schedule_time
    interval := interval
    max_retries := max_retries
    retry_count := 0
    status := TaskStatus.pending
    created_at := now
    started_at := none
    completed_at := none
    result := none
    error := none
    next_run := some schedule_time }

/-- `TaskScheduler.schedule_task` (scheduler.py lines 86-134):
`schedule_time = None` defaults to `now`, the constructed task is stored
under `task_id` unconditionally (`self.tasks[task_id] = task`) and the id
is returned. -/
def schedule_task (m : TaskMap) (task_id nm : String) (schedule_time : Option Nat)
    (interval : Option Nat) (max_retries : Nat) (now : Nat) : TaskMap × String :=
  let st := schedule_time.getD now
  (ainsert m task_id (newTask task_id nm st interval max_retries now), task_id)

/-- The mutation performed by `cancel_task` on the task record itself
(scheduler.py lines 151-156), returning the updated record and the
boolean result. -/
def cancelRecord (t : ScheduledTask) (now : Nat) : ScheduledTask × Bool :=
  if t.status = TaskStatus.completed ∨ t.status = TaskStatus.failed ∨
      t.status = TaskStatus.cancelled then
    (t, false)
  else
    ({ t with status := TaskStatus.cancelled
              error := some "Cancelled by user"
              completed_at := some now }, true)

/-- `TaskScheduler.cancel_task` (scheduler.py lines 136-159). -/
def cancel_task (m : TaskMap) (task_id : String) (now : Nat) : TaskMap × Bool :=
  match alookup m task_id with
  | none => (m, false)
  | some t =>
      let (t2, ok) := cancelRecord t now
      if ok then (ainsert m task_id t2, true) else (m, false)

/-- Outcome of one execution of a task's work function: the callable
returns a value, or raises an exception with message `msg`. -/
inductive ExecOutcome where
  | success (res : String)
  | failure (msg : String)

/-- The guarded start of `_execute_task` (scheduler.py lines 256-261):
a task that is no longer pending is not run; otherwise it becomes
running with `started_at` stamped. -/
def executeStart (t : ScheduledTask) (now : Nat) : Option ScheduledTask :=
  if t.status ≠ TaskStatus.pending then none
  else some { t with status := TaskStatus.running, started_at := some now }

/-- The success commit of `_execute_task` (scheduler.py lines 276-285):
status becomes completed, and a recurring task is re-armed (`next_run`
refreshed, pending again, retry count reset). The commit does not
inspect the task's current status. -/
def commitSuccess (t : ScheduledTask) (res : String) (now : Nat) : ScheduledTask :=
  let t1 := { t with status := TaskStatus.completed
                     result := some res
                     completed_at := some now }
  match t1.interval with
  | some i =>
      { t1 with next_run := some (now + i)
                status := TaskStatus.pending
                retry_count := 0 }
  | none => t1

/-- The failure commit of `_execute_task` (scheduler.py lines 293-307):
`retry_count` is incremented first; if it is still below `max_retries`
a retry is scheduled `2 ^ retry_count` minutes later, otherwise the task
is failed. The commit does not inspect the task's current status. -/
def commitFailure (t : ScheduledTask) (msg : String) (now : Nat) : ScheduledTask :=
  let t1 := { t with retry_count := t.retry_count + 1, error := some msg }
  if t1.retry_count < t1.max_retries then
    { t1 with next_run := some (now + 2 ^ t1.retry_count)
              status := TaskStatus.pending }
  else
    { t1 with status := TaskStatus.failed, completed_at := some now }

/-- One whole pass of `_execute_task` over a task record, with the
execution outcome `o` supplied for the opaque callable. -/
def executeTask (t : ScheduledTask) (o : ExecOutcome) (now : Nat) : ScheduledTask :=
  match executeStart t now with
  | none => t
  | some t1 =>
      match o with
      | ExecOutcome.success res => commitSuccess t1 res now
      | ExecOutcome.failure msg => commitFailure t1 msg now

/-- One execution attempt of a task whose work function always raises. -/
def failStep (t : ScheduledTask) (now : Nat) : ScheduledTask :=
  executeTask t (ExecOutcome.failure "boom") now

/-- `k` scheduler passes over a task whose work function always raises
(times are irrelevant to status and retry count and fixed at 0). -/
def iterFail (t : ScheduledTask) : Nat → ScheduledTask
  | 0 => t
  | k + 1 => failStep (iterFail t k) 0

/-- A freshly scheduled one-shot task with `max_retries = n`, as built by
`schedule_task` at time 0. -/
def mkTask (n : Nat) : ScheduledTask := newTask "t" "t" 0 none n 0

/-- A task whose execution is in flight: the state produced by the guarded
start of `_execute_task` on a fresh pending task. -/
def runningTask : ScheduledTask :=
  { mkTask 3 with status := TaskStatus.running, started_at := some 0 }

/-! ## Engine registry (`core/engines/registry.py`)

Engine classes are identified by a code (a natural number); the repo's
engine constructors (`BaseEngine.__init__` and its subclasses) only
assign fields and never raise, so instance construction is total and the
`try`/`except` around it in `get_engine` never fires. An instance
remembers its class and the configuration it was constructed with. -/

structure EngineInstance where
  cls : Nat
  config : List (String × String)
deriving DecidableEq

/-- `EngineRegistry.__init__`: the `_engines` and `_instances` dictionaries. -/
structure EngineRegistry where
  engines : List (String × Nat)
  instances : List (String × EngineInstance)
deriving DecidableEq

/-- `EngineRegistry.register` (registry.py lines 17-28): stores the class
under the name; the instance cache is not touched. The `issubclass`
guard is vacuous here since every modelled class is an engine class. -/
def register (r : EngineRegistry) (nm : String) (cls : Nat) : EngineRegistry :=
  { r with engines := ainsert r.engines nm cls }

/-- `EngineRegistry.get_engine` (registry.py lines 30-56): `None` for an
unregistered name; the cached instance when one exists and no new config
is supplied; otherwise a fresh instance constructed with `config or {}`
and cached. -/
def get_engine (r : EngineRegistry) (nm : String)
    (config : Option (List (String × String))) :
    Option EngineInstance × EngineRegistry :=
  match alookup r.engines nm with
  | none => (none, r)
  | some cls =>
      match alookup r.instances nm, config with
      | some inst, none => (some inst, r)
      | _, _ =>
          let inst : EngineInstance := ⟨cls, config.getD []⟩
          (some inst, { r with instances := ainsert r.instances nm inst })

/-! ## OpenAI Whisper engine (`core/engines/openai_whisper.py`)

`transcribe` is modelled with its fallible collaborators passed in
explicitly: `loadW` is the outcome of `_load_whisper` (raises when the
`whisper` package is missing), `fileExists` is `file_path.exists()`, and
`callW` is the combined outcome of the underlying model load,
transcription and output formatting (any of which may raise). -/

/-- The dictionary returned by `whisper_model.transcribe`. -/
structure WhisperRaw where
  segments : List (Nat × Nat × String)
  text : String
  language : Option String
deriving DecidableEq

/-- `self._available_models` (openai_whisper.py lines 24-28). -/
def availableModels : List String :=
  ["tiny", "tiny.en", "base", "base.en",
   "small", "small.en", "medium", "medium.en",
   "large", "large-v1", "large-v2", "large-v3"]

/-- `TranscriptionResult` dataclass (base.py lines 10-28), keeping the
fields the embedding observes; `engine` is `self.name`, which is
"openaiwhisper" for `OpenAIWhisperEngine`. -/
structure TranscriptionResult where
  success : Bool
  text : Option String := none
  segments : List (Nat × Nat × String) := []
  language : Option String := none
  engine : String := "openaiwhisper"
  model : Option String := none
  error : Option String := none
deriving DecidableEq

/-- `OpenAIWhisperEngine.transcribe` (openai_whisper.py lines 68-172):
load whisper, check `file_path.exists()` (raising
`FileNotFoundError(f"Input file not found: \x7bfile_path\x7d")`), fall
back to the "base" model for unknown model names, run the underlying
call; every exception is caught by the trailing handler and turned into
a failed result carrying `str(e)`. -/
def transcribe (loadW : Except String Unit) (fileExists : Bool) (file_path : String)
    (model : String) (callW : Except String WhisperRaw) : TranscriptionResult :=
  match loadW with
  | Except.error e => { success := false, error := some e, model := some model }
  | Except.ok _ =>
      if fileExists = false then
        { success := false
          error := some ("Input file not found: " ++ file_path)
          model := some model }
      else
        let model2 := if model ∈ availableModels then model else "base"
        match callW with
        | Except.error e => { success := false, error := some e, model := some model2 }
        | Except.ok raw =>
            { success := true
              text := some raw.text
              segments := raw.segments
              language := raw.language
              model := some model2 }

/-! ## YouTube fetcher (`tasks/youtube_fetcher.py`)

The playlist returned by `get_playlist_info` is passed in as the list of
entries; `upload_date` is `none` when the key is missing or empty,
`some none` when present but unparseable by `strptime`, and
`some (some d)` when it parses to day `d`. -/

/-- `YouTubeChannel` dataclass (youtube_fetcher.py lines 17-25). -/
structure YouTubeChannel where
  channel_id : String
  channel_name : String
  last_check : Option Nat
  enabled : Bool
deriving DecidableEq

/-- One entry of the playlist dictionary (`video_info`). -/
structure VideoInfo where
  vid : Option String
  title : Option String
  webpage_url : Option String
  duration : Option Nat
  upload_date : Option (Option Nat)
deriving DecidableEq

/-- `VideoFetchResult` dataclass (youtube_fetcher.py lines 28-39), the
fields set by `_check_channel_for_new_videos`. -/
structure VideoFetchResult where
  video_id : String
  title : String
  url : String
  duration : Option Nat
  upload_date : Option (Option Nat)
deriving DecidableEq

/-- The fetcher state touched by a channel check: `self.channels`,
`self.processed_videos` and the scheduler's task dictionary. -/
structure FetcherSt where
  channels : List (String × YouTubeChannel)
  processed_videos : List String
  sched : TaskMap

/-- The upload-date guard (youtube_fetcher.py lines 226-233): skip when
`last_check` is set, the upload date is present and parses, and the video
date is not after the last check; on a parse failure process anyway. -/
def skipByDate (ch : YouTubeChannel) (e : VideoInfo) : Bool :=
  match ch.last_check, e.upload_date with
  | some lc, some (some d) => decide (d ≤ lc)
  | _, _ => false

/-- The `VideoFetchResult(...)` construction (youtube_fetcher.py lines
236-242), with the dictionary `get` defaults. -/
def mkVideoFetchResult (v : String) (e : VideoInfo) : VideoFetchResult :=
  { video_id := v
    title := e.title.getD "Unknown"
    url := e.webpage_url.getD ("https://www.youtube.com/watch?v=" ++ v)
    duration := e.duration
    upload_date := e.upload_date }

/-- `YouTubeFetcher._schedule_video_processing` (youtube_fetcher.py lines
261-290): schedule the download task now and the transcription task five
minutes later (both one-shot with the default `max_retries = 3`), then
add the video id to the processed set. -/
def scheduleVideoProcessing (st : FetcherSt) (video : VideoFetchResult) (now : Nat) :
    FetcherSt :=
  let sched1 := (schedule_task st.sched ("download_" ++ video.video_id)
      ("Download video: " ++ video.title) none none 3 now).1
  let sched2 := (schedule_task sched1 ("transcribe_" ++ video.video_id)
      ("Transcribe video: " ++ video.title) (some (now + 5)) none 3 now).1
  { st with sched := sched2
            processed_videos := video.video_id :: st.processed_videos }

/-- The entry loop of `_check_channel_for_new_videos` (youtube_fetcher.py
lines 215-247): skip entries without an id, entries already in the
processed set, and entries filtered by the upload-date guard; every other
entry is collected as newly discovered and scheduled for processing. -/
def processEntries (ch : YouTubeChannel) (now : Nat) :
    List VideoInfo → FetcherSt → List VideoFetchResult × FetcherSt
  | [], st => ([], st)
  | e :: rest, st =>
      match e.vid with
      | none => processEntries ch now rest st
      | some v =>
          if v ∈ st.processed_videos then processEntries ch now rest st
          else if skipByDate ch e then processEntries ch now rest st
          else
            let vr := mkVideoFetchResult v e
            let st1 := scheduleVideoProcessing st vr now
            let (vs, st2) := processEntries ch now rest st1
            (vr :: vs, st2)

/-- `YouTubeFetcher._check_channel_for_new_videos` (youtube_fetcher.py
lines 182-259): empty result for an unknown or disabled channel;
otherwise run the entry loop and stamp the channel's `last_check`. -/
def checkChannelForNewVideos (st : FetcherSt) (channel_id : String)
    (entries : List VideoInfo) (now : Nat) : List VideoFetchResult × FetcherSt :=
  match alookup st.channels channel_id with
  | none => ([], st)
  | some ch =>
      if ch.enabled = false then ([], st)
      else
        let ch2 : YouTubeChannel := { ch with last_check := some now }
        let (nv, st1) := processEntries ch now entries st
        (nv, { st1 with channels := ainsert st1.channels channel_id ch2 })

/-! ## Helper lemmas -/

theorem alookup_ainsert_self {α : Type} (m : List (String × α)) (k : String) (v : α) :
    alookup (ainsert m k v) k = some v := by
  induction m with
  | nil => simp [ainsert, alookup]
  | cons hd tl ih =>
      obtain ⟨k1, v1⟩ := hd
      by_cases h : k1 = k
      · simp [ainsert, alookup, h]
      · simp [ainsert, alookup, h, ih]

theorem failStep_of_pending_lt (t : ScheduledTask) (now : Nat)
    (hp : t.status = TaskStatus.pending) (hlt : t.retry_count + 1 < t.max_retries) :
    (failStep t now).status = TaskStatus.pending ∧
    (failStep t now).retry_count = t.retry_count + 1 ∧
    (failStep t now).max_retries = t.max_retries := by
  simp [failStep, executeTask, executeStart, commitFailure, hp, hlt]

theorem failStep_of_pending_ge (t : ScheduledTask) (now : Nat)
    (hp : t.status = TaskStatus.pending) (hge : ¬ t.retry_count + 1 < t.max_retries) :
    (failStep t now).status = TaskStatus.failed ∧
    (failStep t now).retry_count = t.retry_count + 1 ∧
    (failStep t now).max_retries = t.max_retries := by
  simp [failStep, executeTask, executeStart, commitFailure, hp, hge]

theorem executeTask_of_not_pending (t : ScheduledTask) (o : ExecOutcome) (now : Nat)
    (hp : t.status ≠ TaskStatus.pending) : executeTask t o now = t := by
  simp [executeTask, executeStart, hp]

/-- Closed form of `iterFail` on a fresh task with `max_retries = n`:
the task stays pending with `retry_count = k` for the first
`max n 1 - 1` attempts and is failed with `retry_count = max n 1` from
attempt `max n 1` on. -/
theorem iterFail_mkTask_spec (n : Nat) : ∀ k : Nat,
    (iterFail (mkTask n) k).status =
      (if k < max n 1 then TaskStatus.pending else TaskStatus.failed) ∧
    (iterFail (mkTask n) k).retry_count = min k (max n 1) ∧
    (iterFail (mkTask n) k).max_retries = n := by
  intro k
  induction k with
  | zero =>
      have h0 : 0 < max n 1 := by omega
      refine ⟨?_, ?_, ?_⟩
      · simp [iterFail, mkTask, newTask, h0]
      · simp [iterFail, mkTask, newTask]
      · simp [iterFail, mkTask, newTask]
  | succ k ih =>
      obtain ⟨hs, hr, hm⟩ := ih
      have hstep : iterFail (mkTask n) (k + 1) = failStep (iterFail (mkTask n) k) 0 := rfl
      by_cases hk : k < max n 1
      · have hpend : (iterFail (mkTask n) k).status = TaskStatus.pending := by
          rw [hs, if_pos hk]
        have hrc : (iterFail (mkTask n) k).retry_count = k := by rw [hr]; omega
        by_cases hk1 : k + 1 < max n 1
        · have hlt : (iterFail (mkTask n) k).retry_count + 1 <
              (iterFail (mkTask n) k).max_retries := by
            rw [hrc, hm]; omega
          obtain ⟨s1, r1, m1⟩ := failStep_of_pending_lt _ 0 hpend hlt
          rw [hstep]
          refine ⟨?_, ?_, ?_⟩
          · rw [s1, if_pos hk1]
          · rw [r1, hrc]; omega
          · rw [m1, hm]
        · have hge : ¬ ((iterFail (mkTask n) k).retry_count + 1 <
              (iterFail (mkTask n) k).max_retries) := by
            rw [hrc, hm]; omega
          obtain ⟨s1, r1, m1⟩ := failStep_of_pending_ge _ 0 hpend hge
          rw [hstep]
          refine ⟨?_, ?_, ?_⟩
          · rw [s1, if_neg hk1]
          · rw [r1, hrc]; omega
          · rw [m1, hm]
      · have hfail : (iterFail (mkTask n) k).status = TaskStatus.failed := by
          rw [hs, if_neg hk]
        have hnoop : failStep (iterFail (mkTask n) k) 0 = iterFail (mkTask n) k := by
          apply executeTask_of_not_pending
          rw [hfail]
          intro hcontra
          exact TaskStatus.noConfusion hcontra
        rw [hstep, hnoop]
        refine ⟨?_, ?_, ?_⟩
        · rw [hs]
          have hk1 : ¬ (k + 1 < max n 1) := by omega
          rw [if_neg hk, if_neg hk1]
        · rw [hr]; omega
        · exact hm

theorem nonterminal_iff (s : TaskStatus) :
    ¬ (s = TaskStatus.completed ∨ s = TaskStatus.failed ∨ s = TaskStatus.cancelled) ↔
    (s = TaskStatus.pending ∨ s = TaskStatus.running) := by
  cases s <;> simp

theorem get_engine_not_registered (r : EngineRegistry) (nm : String)
    (cfg : Option (List (String × String))) (h : alookup r.engines nm = none) :
    get_engine r nm cfg = (none, r) := by
  simp [get_engine, h]

theorem get_engine_cached (r : EngineRegistry) (nm : String) (F : Nat)
    (inst : EngineInstance) (he : alookup r.engines nm = some F)
    (hi : alookup r.instances nm = some inst) :
    get_engine r nm none = (some inst, r) := by
  simp [get_engine, he, hi]

theorem get_engine_fresh_none (r : EngineRegistry) (nm : String) (F : Nat)
    (he : alookup r.engines nm = some F) (hi : alookup r.instances nm = none) :
    get_engine r nm none =
      (some ⟨F, []⟩, { r with instances := ainsert r.instances nm ⟨F, []⟩ }) := by
  simp [get_engine, he, hi, Option.getD]

theorem get_engine_fresh_config (r : EngineRegistry) (nm : String) (F : Nat)
    (c : List (String × String)) (he : alookup r.engines nm = some F) :
    get_engine r nm (some c) =
      (some ⟨F, c⟩, { r with instances := ainsert r.instances nm ⟨F, c⟩ }) := by
  cases hi : alookup r.instances nm <;> simp [get_engine, he, hi, Option.getD]

theorem register_engines_self (r : EngineRegistry) (nm : String) (F : Nat) :
    alookup (register r nm F).engines nm = some F :=
  alookup_ainsert_self r.engines nm F

theorem register_keeps_instances (r : EngineRegistry) (nm : String) (F : Nat) :
    (register r nm F).instances = r.instances := rfl

theorem notFound_isInfix (fp : String) :
    List.IsInfix "not found".data ("Input file not found: " ++ fp).data := by
  refine ⟨"Input file ".data, ": ".data ++ fp.data, ?_⟩
  have hlit : "Input file ".data ++ "not found".data ++ ": ".data =
      "Input file not found: ".data := by decide
  have happ : ("Input file not found: " ++ fp).data =
      "Input file not found: ".data ++ fp.data := rfl
  rw [happ, ← hlit]
  simp [List.append_assoc]

theorem processEntries_all_processed (ch : YouTubeChannel) (now : Nat)
    (entries : List VideoInfo) (st : FetcherSt)
    (h : ∀ e ∈ entries, ∃ v, e.vid = some v ∧ v ∈ st.processed_videos) :
    processEntries ch now entries st = ([], st) := by
  induction entries with
  | nil => rfl
  | cons e rest ih =>
      obtain ⟨v, hv, hmem⟩ := h e (by simp)
      have hrest : ∀ e2 ∈ rest, ∃ v2, e2.vid = some v2 ∧ v2 ∈ st.processed_videos :=
        fun e2 he2 => h e2 (by simp [he2])
      simp [processEntries, hv, hmem, ih hrest]

/-! ## Claim theorems -/

/-- C1 counterexample: the claim says a fresh always-failing task with
`max_retries = 3` fails after exactly 4 execution attempts, never fewer;
but on the code the task is still pending after 2 attempts and already
failed after 3 attempts. -/
theorem C1_n_plus_one_counterexample :
    (iterFail (mkTask 3) 2).status = TaskStatus.pending ∧
    (iterFail (mkTask 3) 3).status = TaskStatus.failed := by decide

/-- C1 (amended): for every task scheduled with `max_retries = n` whose
work function raises on every execution, the scheduler transitions the
task to failed after exactly `max n 1` execution attempts (the initial
attempt plus `n - 1` retries when `n ≥ 1`), never more and never fewer:
before attempt `max n 1` the task is still pending, and from attempt
`max n 1` on it is failed and no further pass changes it. -/
theorem C1_attempts_until_failed (n : Nat) :
    (∀ k, k < max n 1 → (iterFail (mkTask n) k).status = TaskStatus.pending) ∧
    (∀ m, max n 1 ≤ m → (iterFail (mkTask n) m).status = TaskStatus.failed ∧
      (iterFail (mkTask n) m).retry_count = max n 1) := by
  constructor
  · intro k hk
    obtain ⟨hs, _, _⟩ := iterFail_mkTask_spec n k
    rw [hs, if_pos hk]
  · intro m hm
    obtain ⟨hs, hr, _⟩ := iterFail_mkTask_spec n m
    have hnot : ¬ m < max n 1 := by omega
    exact ⟨by rw [hs, if_neg hnot], by rw [hr]; omega⟩

/-- C1 witness: the amended claim evaluated at `n = 2`. -/
theorem C1_attempts_until_failed_witness :
    (1 < max 2 1 ∧ (iterFail (mkTask 2) 1).status = TaskStatus.pending) ∧
    (max 2 1 ≤ 5 ∧ (iterFail (mkTask 2) 5).status = TaskStatus.failed) :=
  ⟨⟨by decide, (C1_attempts_until_failed 2).1 1 (by decide)⟩,
   ⟨by decide, ((C1_attempts_until_failed 2).2 5 (by decide)).1⟩⟩

/-- C2: a task cancelled while its execution is in flight does NOT keep
its cancelled terminal status: the success commit of `_execute_task`
does not check status and overwrites cancelled with completed. The
in-flight state `runningTask` is reachable via `executeStart`, a cancel
on it succeeds and marks it cancelled, and the subsequent commit of the
finishing execution sets it to completed. -/
theorem C2_cancelled_overwritten_by_commit :
    executeStart (mkTask 3) 0 = some runningTask ∧
    (cancelRecord runningTask 5).2 = true ∧
    (cancelRecord runningTask 5).1.status = TaskStatus.cancelled ∧
    (commitSuccess (cancelRecord runningTask 5).1 "ok" 9).status =
      TaskStatus.completed := by decide

/-- C3: on a failed execution the retry delay is `2 ^ retry_count`
minutes with `retry_count` already incremented for that failure;
`retry_count` is incremented on every failure, is reset to 0 by a
successful execution of a recurring task and is left unchanged by a
successful execution of a one-shot task; a one-shot task that exhausts
its retries becomes failed (staying one-shot) and a failed task is
never run again. -/
theorem C3_backoff_retry_spec (t : ScheduledTask) (now i : Nat) (msg res : String)
    (o : ExecOutcome) :
    (t.status = TaskStatus.pending → t.retry_count + 1 < t.max_retries →
      (executeTask t (ExecOutcome.failure msg) now).status = TaskStatus.pending ∧
      (executeTask t (ExecOutcome.failure msg) now).retry_count = t.retry_count + 1 ∧
      (executeTask t (ExecOutcome.failure msg) now).next_run =
        some (now + 2 ^ (t.retry_count + 1))) ∧
    (t.status = TaskStatus.pending →
      (executeTask t (ExecOutcome.failure msg) now).retry_count = t.retry_count + 1) ∧
    (t.status = TaskStatus.pending → t.interval = some i →
      (executeTask t (ExecOutcome.success res) now).retry_count = 0) ∧
    (t.status = TaskStatus.pending → t.interval = none →
      (executeTask t (ExecOutcome.success res) now).retry_count = t.retry_count) ∧
    (t.status = TaskStatus.pending → ¬ t.retry_count + 1 < t.max_retries →
      (executeTask t (ExecOutcome.failure msg) now).status = TaskStatus.failed ∧
      (executeTask t (ExecOutcome.failure msg) now).interval = t.interval) ∧
    (t.status = TaskStatus.failed → executeTask t o now = t) := by
  refine ⟨?_, ?_, ?_, ?_, ?_, ?_⟩
  · intro hp hlt
    simp [executeTask, executeStart, commitFailure, hp, hlt]
  · intro hp
    by_cases hlt : t.retry_count + 1 < t.max_retries <;>
      simp [executeTask, executeStart, commitFailure, hp, hlt]
  · intro hp hi
    simp [executeTask, executeStart, commitSuccess, hp, hi]
  · intro hp hi
    simp [executeTask, executeStart, commitSuccess, hp, hi]
  · intro hp hge
    simp [executeTask, executeStart, commitFailure, hp, hge]
  · intro hf
    have : t.status ≠ TaskStatus.pending := by rw [hf]; simp
    simp [executeTask, executeStart, this]

/-- C3 witness: the backoff conjunct evaluated on a fresh task with
`max_retries = 3` failing its first execution at time 0. -/
theorem C3_backoff_retry_spec_witness :
    ((mkTask 3).status = TaskStatus.pending ∧
      (mkTask 3).retry_count + 1 < (mkTask 3).max_retries) ∧
    (executeTask (mkTask 3) (ExecOutcome.failure "boom") 0).status =
      TaskStatus.pending ∧
    (executeTask (mkTask 3) (ExecOutcome.failure "boom") 0).retry_count =
      (mkTask 3).retry_count + 1 ∧
    (executeTask (mkTask 3) (ExecOutcome.failure "boom") 0).next_run =
      some (0 + 2 ^ ((mkTask 3).retry_count + 1)) :=
  ⟨⟨rfl, by decide⟩,
   (C3_backoff_retry_spec (mkTask 3) 0 7 "boom" "ok"
     (ExecOutcome.success "x")).1 rfl (by decide)⟩

/-- C4: after a successful execution at time `now` of a recurring task
with interval `i`, the task's `next_run` is `now + i` (completion time
plus the interval, at tick granularity), its retry count is 0 and it is
pending again, with `completed_at` stamped to the completion time. -/
theorem C4_recurring_success_rearm (t : ScheduledTask) (now i : Nat) (res : String)
    (hp : t.status = TaskStatus.pending) (hi : t.interval = some i) :
    (executeTask t (ExecOutcome.success res) now).next_run = some (now + i) ∧
    (executeTask t (ExecOutcome.success res) now).retry_count = 0 ∧
    (executeTask t (ExecOutcome.success res) now).status = TaskStatus.pending ∧
    (executeTask t (ExecOutcome.success res) now).completed_at = some now := by
  simp [executeTask, executeStart, commitSuccess, hp, hi]

/-- C4 witness: a recurring task with interval 10 finishing successfully
at time 4. -/
theorem C4_recurring_success_rearm_witness :
    ({ mkTask 3 with interval := some 10 } : ScheduledTask).status =
      TaskStatus.pending ∧
    ({ mkTask 3 with interval := some 10 } : ScheduledTask).interval = some 10 ∧
    (executeTask { mkTask 3 with interval := some 10 }
      (ExecOutcome.success "ok") 4).next_run = some (4 + 10) ∧
    (executeTask { mkTask 3 with interval := some 10 }
      (ExecOutcome.success "ok") 4).retry_count = 0 ∧
    (executeTask { mkTask 3 with interval := some 10 }
      (ExecOutcome.success "ok") 4).status = TaskStatus.pending ∧
    (executeTask { mkTask 3 with interval := some 10 }
      (ExecOutcome.success "ok") 4).completed_at = some 4 :=
  ⟨rfl, rfl, C4_recurring_success_rearm _ 4 10 "ok" rfl rfl⟩

/-- C5: `cancel_task` returns true exactly when the task exists and is
non-terminal (pending or running), in which case the stored task becomes
cancelled; it returns false for an unknown id or a terminal task, and a
second cancel of the same task returns false. -/
theorem C5_cancel_task_spec (m : TaskMap) (task_id : String) (now now2 : Nat) :
    ((cancel_task m task_id now).2 = true ↔
      ∃ t, alookup m task_id = some t ∧
        (t.status = TaskStatus.pending ∨ t.status = TaskStatus.running)) ∧
    (∀ t, alookup m task_id = some t →
      (t.status = TaskStatus.pending ∨ t.status = TaskStatus.running) →
      alookup (cancel_task m task_id now).1 task_id =
        some { t with status := TaskStatus.cancelled
                      error := some "Cancelled by user"
                      completed_at := some now }) ∧
    ((cancel_task m task_id now).2 = true →
      (cancel_task (cancel_task m task_id now).1 task_id now2).2 = false) := by
  have hmain : ∀ t, alookup m task_id = some t →
      (t.status = TaskStatus.pending ∨ t.status = TaskStatus.running) →
      cancel_task m task_id now =
        (ainsert m task_id { t with status := TaskStatus.cancelled
                                    error := some "Cancelled by user"
                                    completed_at := some now }, true) := by
    intro t ht hnt
    have hterm : ¬ (t.status = TaskStatus.completed ∨ t.status = TaskStatus.failed ∨
        t.status = TaskStatus.cancelled) := (nonterminal_iff t.status).mpr hnt
    simp [cancel_task, ht, cancelRecord, hterm]
  refine ⟨?_, ?_, ?_⟩
  · cases ht : alookup m task_id with
    | none => simp [cancel_task, ht]
    | some t =>
        by_cases hnt : t.status = TaskStatus.pending ∨ t.status = TaskStatus.running
        · rw [hmain t ht hnt]
          constructor
          · intro _
            exact ⟨t, rfl, hnt⟩
          · intro _
            rfl
        · have hterm : t.status = TaskStatus.completed ∨ t.status = TaskStatus.failed ∨
              t.status = TaskStatus.cancelled := by
            cases h : t.status <;> simp_all
          constructor
          · intro h
            simp [cancel_task, ht, cancelRecord, hterm] at h
          · rintro ⟨t2, ht2, hnt2⟩
            obtain rfl := Option.some.inj ht2
            exact absurd hnt2 hnt
  · intro t ht hnt
    rw [hmain t ht hnt]
    exact alookup_ainsert_self m task_id _
  · intro h
    obtain ⟨t, ht, hnt⟩ : ∃ t, alookup m task_id = some t ∧
        (t.status = TaskStatus.pending ∨ t.status = TaskStatus.running) := by
      cases ht : alookup m task_id with
      | none => simp [cancel_task, ht] at h
      | some t =>
          by_cases hnt : t.status = TaskStatus.pending ∨ t.status = TaskStatus.running
          · exact ⟨t, rfl, hnt⟩
          · have hterm : t.status = TaskStatus.completed ∨
                t.status = TaskStatus.failed ∨ t.status = TaskStatus.cancelled := by
              cases hx : t.status <;> simp_all
            simp [cancel_task, ht, cancelRecord, hterm] at h
    rw [hmain t ht hnt]
    have hl := alookup_ainsert_self m task_id
        { t with status := TaskStatus.cancelled
                 error := some "Cancelled by user"
                 completed_at := some now }
    simp [cancel_task, hl, cancelRecord]

/-- C5 witness: cancelling a fresh pending task succeeds once and fails
the second time. -/
theorem C5_cancel_task_spec_witness :
    (cancel_task [("a", mkTask 3)] "a" 0).2 = true ∧
    (cancel_task (cancel_task [("a", mkTask 3)] "a" 0).1 "a" 1).2 = false :=
  ⟨by decide, (C5_cancel_task_spec [("a", mkTask 3)] "a" 0 1).2.2 (by decide)⟩

/-- C6: `get_engine` returns `none` (and, being total, cannot raise) for
an unregistered name and leaves the registry untouched; `register` makes
the class retrievable without touching the instance cache; with a cached
instance and no new configuration the cached instance is returned
unchanged; otherwise a fresh instance of the registered class is
constructed (with the supplied configuration, or `{}` when none)
and cached. -/
theorem C6_get_engine_spec (r : EngineRegistry) (nm : String) (F : Nat)
    (cfg : Option (List (String × String))) (c : List (String × String))
    (inst : EngineInstance) :
    (alookup r.engines nm = none → get_engine r nm cfg = (none, r)) ∧
    (alookup (register r nm F).engines nm = some F ∧
      (register r nm F).instances = r.instances) ∧
    (alookup r.engines nm = some F → alookup r.instances nm = some inst →
      get_engine r nm none = (some inst, r)) ∧
    (alookup r.engines nm = some F → alookup r.instances nm = none →
      get_engine r nm none =
        (some ⟨F, []⟩, { r with instances := ainsert r.instances nm ⟨F, []⟩ })) ∧
    (alookup r.engines nm = some F →
      get_engine r nm (some c) =
        (some ⟨F, c⟩, { r with instances := ainsert r.instances nm ⟨F, c⟩ })) :=
  ⟨get_engine_not_registered r nm cfg,
   ⟨register_engines_self r nm F, register_keeps_instances r nm F⟩,
   get_engine_cached r nm F inst,
   get_engine_fresh_none r nm F,
   get_engine_fresh_config r nm F c⟩

/-- C6 witness: on the empty registry, an unregistered lookup returns
`none`, and after registering class 7 under "x" the first `get_engine`
returns an instance of class 7. -/
theorem C6_get_engine_spec_witness :
    get_engine ⟨[], []⟩ "x" none = (none, (⟨[], []⟩ : EngineRegistry)) ∧
    (get_engine (register ⟨[], []⟩ "x" 7) "x" none).1 = some ⟨7, []⟩ :=
  ⟨(C6_get_engine_spec ⟨[], []⟩ "x" 7 none [] ⟨7, []⟩).1 rfl,
   by rw [(C6_get_engine_spec (register ⟨[], []⟩ "x" 7) "x" 7 none [] ⟨7, []⟩).2.2.2.1
       (by decide) rfl]⟩

/-- C7: `transcribe` on a nonexistent file returns a failed result whose
error message is the `FileNotFoundError` text, which mentions
"not found"; an exception from `_load_whisper` and an exception from the
underlying whisper call are each converted into a failed result carrying
the exception's message; being total, the function lets no exception
escape. -/
theorem C7_transcribe_error_spec (file_path model e : String)
    (callW : Except String WhisperRaw) (fe : Bool) :
    ((transcribe (Except.ok ()) false file_path model callW).success = false ∧
      (transcribe (Except.ok ()) false file_path model callW).error =
        some ("Input file not found: " ++ file_path) ∧
      List.IsInfix "not found".data ("Input file not found: " ++ file_path).data) ∧
    ((transcribe (Except.error e) fe file_path model callW).success = false ∧
      (transcribe (Except.error e) fe file_path model callW).error = some e) ∧
    ((transcribe (Except.ok ()) true file_path model (Except.error e)).success =
      false ∧
      (transcribe (Except.ok ()) true file_path model (Except.error e)).error =
        some e) := by
  refine ⟨⟨rfl, rfl, notFound_isInfix file_path⟩, ⟨rfl, rfl⟩, ?_, ?_⟩
  · simp [transcribe]
  · simp [transcribe]

/-- C8: when the processed set already contains the ids of all entries
reported for a channel, re-running the channel check discovers nothing:
the returned list of new videos is empty, the processed set is unchanged
and no download or transcription task is scheduled. -/
theorem C8_check_channel_dedup (st : FetcherSt) (channel_id : String)
    (entries : List VideoInfo) (now : Nat)
    (h : ∀ e ∈ entries, ∃ v, e.vid = some v ∧ v ∈ st.processed_videos) :
    (checkChannelForNewVideos st channel_id entries now).1 = [] ∧
    (checkChannelForNewVideos st channel_id entries now).2.processed_videos =
      st.processed_videos ∧
    (checkChannelForNewVideos st channel_id entries now).2.sched = st.sched := by
  cases hc : alookup st.channels channel_id with
  | none =>
      refine ⟨?_, ?_, ?_⟩ <;> simp [checkChannelForNewVideos, hc]
  | some ch =>
      by_cases he : ch.enabled = false
      · refine ⟨?_, ?_, ?_⟩ <;> simp [checkChannelForNewVideos, hc, he]
      · have hpe := processEntries_all_processed ch now entries st h
        refine ⟨?_, ?_, ?_⟩ <;> simp [checkChannelForNewVideos, hc, he, hpe]

/-- C8 witness: a channel whose single reported entry is already in the
processed set yields no new videos and schedules nothing. -/
theorem C8_check_channel_dedup_witness :
    (checkChannelForNewVideos
      ⟨[("c", ⟨"c", "C", none, true⟩)], ["a"], []⟩ "c"
      [⟨some "a", none, none, none, none⟩] 0).1 = [] ∧
    (checkChannelForNewVideos
      ⟨[("c", ⟨"c", "C", none, true⟩)], ["a"], []⟩ "c"
      [⟨some "a", none, none, none, none⟩] 0).2.processed_videos = ["a"] ∧
    (checkChannelForNewVideos
      ⟨[("c", ⟨"c", "C", none, true⟩)], ["a"], []⟩ "c"
      [⟨some "a", none, none, none, none⟩] 0).2.sched = [] :=
  C8_check_channel_dedup ⟨[("c", ⟨"c", "C", none, true⟩)], ["a"], []⟩ "c"
    [⟨some "a", none, none, none, none⟩] 0
    (by
      intro e he
      rw [List.mem_singleton] at he
      subst he
      exact ⟨"a", rfl, by simp⟩)

/-- C9: re-registering a name does not invalidate the instance cache:
after `register(n, A)` and a caching `get_engine(n)`, a later
`register(n, B)` followed by `get_engine(n)` with no configuration still
returns the cached instance of `A`, not an instance of `B`. -/
theorem C9_reregister_keeps_cache (r : EngineRegistry) (nm : String) (A B : Nat)
    (h : alookup r.instances nm = none) (hAB : A ≠ B) :
    (get_engine (register r nm A) nm none).1 = some ⟨A, []⟩ ∧
    (get_engine (register (get_engine (register r nm A) nm none).2 nm B)
      nm none).1 = some ⟨A, []⟩ ∧
    (get_engine (register (get_engine (register r nm A) nm none).2 nm B)
      nm none).1 ≠ some ⟨B, []⟩ := by
  have h1 : get_engine (register r nm A) nm none =
      (some ⟨A, []⟩,
        { engines := ainsert r.engines nm A,
          instances := ainsert r.instances nm ⟨A, []⟩ }) :=
    get_engine_fresh_none (register r nm A) nm A (register_engines_self r nm A) h
  rw [h1]
  have h2 : get_engine
      (register ⟨ainsert r.engines nm A, ainsert r.instances nm ⟨A, []⟩⟩ nm B)
      nm none =
      (some ⟨A, []⟩,
        register ⟨ainsert r.engines nm A, ainsert r.instances nm ⟨A, []⟩⟩ nm B) :=
    get_engine_cached _ nm B ⟨A, []⟩
      (register_engines_self
        ⟨ainsert r.engines nm A, ainsert r.instances nm ⟨A, []⟩⟩ nm B)
      (alookup_ainsert_self r.instances nm ⟨A, []⟩)
  refine ⟨rfl, ?_, ?_⟩
  · show (get_engine
      (register ⟨ainsert r.engines nm A, ainsert r.instances nm ⟨A, []⟩⟩ nm B)
      nm none).1 = some ⟨A, []⟩
    rw [h2]
  · show (get_engine
      (register ⟨ainsert r.engines nm A, ainsert r.instances nm ⟨A, []⟩⟩ nm B)
      nm none).1 ≠ some ⟨B, []⟩
    rw [h2]
    intro hc
    injection hc with hc2
    exact hAB (congrArg EngineInstance.cls hc2)

/-- C9 witness: register class 0 under "x", cache it, re-register class 1;
`get_engine` still returns the cached instance of class 0. -/
theorem C9_reregister_keeps_cache_witness :
    (get_engine (register (⟨[], []⟩ : EngineRegistry) "x" 0) "x" none).1 =
      some ⟨0, []⟩ ∧
    (get_engine (register
        (get_engine (register (⟨[], []⟩ : EngineRegistry) "x" 0) "x" none).2
        "x" 1) "x" none).1 = some ⟨0, []⟩ ∧
    (get_engine (register
        (get_engine (register (⟨[], []⟩ : EngineRegistry) "x" 0) "x" none).2
        "x" 1) "x" none).1 ≠ some ⟨1, []⟩ :=
  C9_reregister_keeps_cache ⟨[], []⟩ "x" 0 1 rfl (by decide)

/-- C10: `schedule_task` with an id already present in the task map
unconditionally replaces the stored task with the newly constructed
pending task (retry count 0, prior state discarded) and returns the id. -/
theorem C10_schedule_task_replaces (m : TaskMap) (X nm : String)
    (stime : Option Nat) (i : Option Nat) (mr now : Nat) (t0 : ScheduledTask)
    (h : alookup m X = some t0) :
    (schedule_task m X nm stime i mr now).2 = X ∧
    alookup (schedule_task m X nm stime i mr now).1 X =
      some (newTask X nm (stime.getD now) i mr now) ∧
    (newTask X nm (stime.getD now) i mr now).status = TaskStatus.pending ∧
    (newTask X nm (stime.getD now) i mr now).retry_count = 0 := by
  refine ⟨rfl, ?_, rfl, rfl⟩
  exact alookup_ainsert_self m X _

/-- C10 witness: re-scheduling over an existing task with the same id. -/
theorem C10_schedule_task_replaces_witness :
    alookup [("x", mkTask 0)] "x" = some (mkTask 0) ∧
    (schedule_task [("x", mkTask 0)] "x" "n" none none 3 9).2 = "x" ∧
    alookup (schedule_task [("x", mkTask 0)] "x" "n" none none 3 9).1 "x" =
      some (newTask "x" "n" ((none : Option Nat).getD 9) none 3 9) ∧
    (newTask "x" "n" ((none : Option Nat).getD 9) none 3 9).status =
      TaskStatus.pending ∧
    (newTask "x" "n" ((none : Option Nat).getD 9) none 3 9).retry_count = 0 :=
  ⟨by decide,
   C10_schedule_task_replaces [("x", mkTask 0)] "x" "n" none none 3 9 (mkTask 0)
     (by decide)⟩

end WhisperSubtitle
